import Mathlib

/-!
Verification development for the ContractAI frontend.

The definitions below are shallow embeddings of the frontend's core logic:
the sanitization layer (frontend/src/lib/sanitize.ts), the analysis session
controller (the AnalysisContent variants), the upload admission gate
(frontend/src/components/contract/DocumentUploader.tsx, validateFile) and
the API request error handling (frontend/src/lib/api.ts).
-/

namespace ContractAI

/-! Sanitization layer.

frontend/src/lib/sanitize.ts delegates to DOMPurify, which is an external
package and not part of this repository.  The tokenizer, the serializer and
sanitizeDOM below are therefore modelled from the spec (section 4.2): parse
the input as HTML, drop every tag that is not in the allow-list, drop script
and style element content entirely, and re-serialize the remaining text with
entity escaping. -/

/-- Token of the simplified HTML model: one text character, or one tag with a
closing flag and a (lower-cased) name. -/
inductive Tok where
  | text (c : Char)
  | tagTok (closing : Bool) (nm : List Char)
deriving DecidableEq

/-- Splits the character stream at the first gt character: the characters
before it and the rest after it, or none when no gt character occurs. -/
def splitAtGt : List Char → Option (List Char × List Char)
  | [] => none
  | c :: cs =>
    if c = '>' then some ([], cs)
    else (splitAtGt cs).map (fun p => (c :: p.1, p.2))

theorem splitAtGt_length : ∀ {l t r : List Char}, splitAtGt l = some (t, r) →
    r.length < l.length := by
  intro l
  induction l with
  | nil => intro t r h; simp [splitAtGt] at h
  | cons c cs ih =>
    intro t r h
    simp only [splitAtGt] at h
    split at h
    · rcases h with ⟨rfl, rfl⟩
      exact Nat.lt_succ_self _
    · cases hcs : splitAtGt cs with
      | none => rw [hcs] at h; simp at h
      | some p =>
        rw [hcs] at h
        simp only [Option.map_some', Option.some.injEq, Prod.mk.injEq] at h
        rcases h with ⟨_, rfl⟩
        exact Nat.lt_succ_of_lt (ih (by rw [hcs]))

theorem splitAtGt_append : ∀ (nm : List Char), '>' ∉ nm → ∀ s : List Char,
    splitAtGt (nm ++ '>' :: s) = some (nm, s)
  | [], _, s => by simp [splitAtGt]
  | c :: cs, h, s => by
    have hc : ¬ (c = '>') := fun hh => h (by simp [hh])
    have ih := splitAtGt_append cs (fun hm => h (by simp [hm])) s
    simp [splitAtGt, hc, ih]

/-- Drops characters up to and through the first occurrence of `pat`;
drops everything when `pat` does not occur. -/
def dropThrough (pat : List Char) : List Char → List Char
  | [] => []
  | c :: cs =>
    if pat.isPrefixOf (c :: cs) then (c :: cs).drop pat.length
    else dropThrough pat cs

theorem dropThrough_length_le (pat : List Char) :
    ∀ l : List Char, (dropThrough pat l).length ≤ l.length
  | [] => by simp [dropThrough]
  | c :: cs => by
    simp only [dropThrough]
    split
    · simp [List.length_drop]
    · exact Nat.le_trans (dropThrough_length_le pat cs) (Nat.le_succ _)

/-- Leading alphabetic characters of a tag body, the tag name portion. -/
def takeLetters : List Char → List Char
  | [] => []
  | c :: cs => if c.isAlpha then c :: takeLetters cs else []

/-- Whether the tag body denotes a closing tag. -/
def tagClosing (tag : List Char) : Bool :=
  match tag with
  | '/' :: _ => true
  | _ => false

/-- Lower-cased name of a tag body. -/
def tagNm (tag : List Char) : List Char :=
  match tag with
  | '/' :: r => (takeLetters r).map Char.toLower
  | _ => (takeLetters tag).map Char.toLower

def scriptName : List Char := ['s','c','r','i','p','t']
def styleName : List Char := ['s','t','y','l','e']
def scriptClose : List Char := ['<','/','s','c','r','i','p','t','>']
def styleClose : List Char := ['<','/','s','t','y','l','e','>']

def tagIsScript (tag : List Char) : Bool :=
  (tagNm tag == scriptName) && !(tagClosing tag)

def tagIsStyle (tag : List Char) : Bool :=
  (tagNm tag == styleName) && !(tagClosing tag)

def entAmp : List Char := ['a','m','p',';']
def entLt : List Char := ['l','t',';']
def entGt : List Char := ['g','t',';']

/-- Modelled from the spec: the HTML parsing step of DOMPurify (an external
package, not in the repository).  Text characters become text tokens, the
three entities amp, lt and gt decode to their characters, tags become tag
tokens, the content of opening script and style elements is dropped through
the matching close tag, and an unterminated tag drops the rest. -/
def tokenizeRaw : List Char → List Tok
  | [] => []
  | c :: cs =>
    if c = '<' then
      match h : splitAtGt cs with
      | none => []
      | some (tag, rest) =>
        if tagIsScript tag then tokenizeRaw (dropThrough scriptClose rest)
        else if tagIsStyle tag then tokenizeRaw (dropThrough styleClose rest)
        else Tok.tagTok (tagClosing tag) (tagNm tag) :: tokenizeRaw rest
    else if c = '&' then
      if entAmp.isPrefixOf cs then Tok.text '&' :: tokenizeRaw (cs.drop 4)
      else if entLt.isPrefixOf cs then Tok.text '<' :: tokenizeRaw (cs.drop 3)
      else if entGt.isPrefixOf cs then Tok.text '>' :: tokenizeRaw (cs.drop 3)
      else Tok.text '&' :: tokenizeRaw cs
    else Tok.text c :: tokenizeRaw cs
termination_by l => l.length
decreasing_by
  all_goals simp_wf
  all_goals first
    | exact Nat.lt_succ_of_lt
        (Nat.lt_of_le_of_lt (dropThrough_length_le _ _) (splitAtGt_length h))
    | exact Nat.lt_succ_of_lt (splitAtGt_length h)
    | omega

/-- Keep a token: text always, a tag only when its name is allowed. -/
def keep (al : List (List Char)) : Tok → Bool
  | Tok.text _ => true
  | Tok.tagTok _ nm => decide (nm ∈ al)

/-- Modelled from the spec: the serialization step of DOMPurify.  Text is
re-escaped (amp, lt, gt) and kept tags are printed in canonical form. -/
def serializeTok : Tok → List Char
  | Tok.text c =>
    if c = '&' then ['&','a','m','p',';']
    else if c = '<' then ['&','l','t',';']
    else if c = '>' then ['&','g','t',';']
    else [c]
  | Tok.tagTok closing nm => '<' :: ((if closing then '/' :: nm else nm) ++ ['>'])

def serialize : List Tok → List Char
  | [] => []
  | t :: ts => serializeTok t ++ serialize ts

/-- Allow-list of BASIC_HTML_CONFIG in frontend/src/lib/sanitize.ts. -/
def BASIC_HTML_ALLOWED_TAGS : List (List Char) :=
  [['b'], ['i'], ['e','m'], ['s','t','r','o','n','g'], ['b','r']]

/-- Allow-list of TEXT_ONLY_CONFIG in frontend/src/lib/sanitize.ts. -/
def TEXT_ONLY_ALLOWED_TAGS : List (List Char) := []

/-- Modelled from the spec: DOMPurify.sanitize with a tag allow-list. -/
def sanitizeDOM (al : List (List Char)) (s : List Char) : List Char :=
  serialize ((tokenizeRaw s).filter (keep al))

/-- sanitizeText of frontend/src/lib/sanitize.ts: falsy input (absent or
empty) maps to the empty string, otherwise DOMPurify with TEXT_ONLY_CONFIG. -/
def sanitizeText (t : Option String) : String :=
  match t with
  | none => ""
  | some s => if s = "" then "" else String.mk (sanitizeDOM TEXT_ONLY_ALLOWED_TAGS s.data)

/-- sanitizeHtml of frontend/src/lib/sanitize.ts: falsy input maps to the
empty string, otherwise DOMPurify with BASIC_HTML_CONFIG. -/
def sanitizeHtml (t : Option String) : String :=
  match t with
  | none => ""
  | some s => if s = "" then "" else String.mk (sanitizeDOM BASIC_HTML_ALLOWED_TAGS s.data)

/-! Roundtrip lemmas: re-tokenizing the serialization of an already-filtered
token stream yields the stream back, which gives idempotence of the model. -/

/-- Tokens whose tags are all in the basic allow-list. -/
def TokOk (t : Tok) : Prop :=
  match t with
  | Tok.text _ => True
  | Tok.tagTok _ nm => nm ∈ BASIC_HTML_ALLOWED_TAGS

theorem tokenizeRaw_textstep (c : Char) (S : List Char) (h1 : ¬ (c = '<'))
    (h2 : ¬ (c = '&')) : tokenizeRaw (c :: S) = Tok.text c :: tokenizeRaw S := by
  simp [tokenizeRaw, h1, h2]

theorem tokenizeRaw_amp (S : List Char) :
    tokenizeRaw ('&' :: 'a' :: 'm' :: 'p' :: ';' :: S) = Tok.text '&' :: tokenizeRaw S := by
  simp [tokenizeRaw, entAmp, List.isPrefixOf]

theorem tokenizeRaw_ltent (S : List Char) :
    tokenizeRaw ('&' :: 'l' :: 't' :: ';' :: S) = Tok.text '<' :: tokenizeRaw S := by
  simp [tokenizeRaw, entAmp, entLt, List.isPrefixOf]

theorem tokenizeRaw_gtent (S : List Char) :
    tokenizeRaw ('&' :: 'g' :: 't' :: ';' :: S) = Tok.text '>' :: tokenizeRaw S := by
  simp [tokenizeRaw, entAmp, entLt, entGt, List.isPrefixOf]

theorem tokenizeRaw_tagstep (tag S : List Char) (hgt : '>' ∉ tag)
    (hs : tagIsScript tag = false) (hy : tagIsStyle tag = false) :
    tokenizeRaw ('<' :: (tag ++ '>' :: S)) =
      Tok.tagTok (tagClosing tag) (tagNm tag) :: tokenizeRaw S := by
  have hsplit := splitAtGt_append tag hgt S
  simp only [tokenizeRaw, reduceIte]
  split
  case _ heq => rw [hsplit] at heq; exact absurd heq (by simp)
  case _ p heq =>
    rw [hsplit] at heq
    simp only [Option.some.injEq, Prod.mk.injEq] at heq
    obtain ⟨rfl, rfl⟩ := heq
    simp [hs, hy]

theorem tokenizeRaw_serialize : ∀ ts : List Tok, (∀ t ∈ ts, TokOk t) →
    tokenizeRaw (serialize ts) = ts
  | [], _ => by simp [serialize, tokenizeRaw]
  | Tok.text c :: ts, h => by
    have ih := tokenizeRaw_serialize ts (fun t ht => h t (List.mem_cons_of_mem _ ht))
    by_cases h1 : c = '&'
    · subst h1
      have hs : serializeTok (Tok.text '&') = ['&', 'a', 'm', 'p', ';'] := by decide
      simp only [serialize, hs, List.cons_append, List.nil_append]
      rw [tokenizeRaw_amp, ih]
    by_cases h2 : c = '<'
    · subst h2
      have hs : serializeTok (Tok.text '<') = ['&', 'l', 't', ';'] := by decide
      simp only [serialize, hs, List.cons_append, List.nil_append]
      rw [tokenizeRaw_ltent, ih]
    by_cases h3 : c = '>'
    · subst h3
      have hs : serializeTok (Tok.text '>') = ['&', 'g', 't', ';'] := by decide
      simp only [serialize, hs, List.cons_append, List.nil_append]
      rw [tokenizeRaw_gtent, ih]
    · have hs : serializeTok (Tok.text c) = [c] := by
        simp [serializeTok, h1, h2, h3]
      simp only [serialize, hs, List.cons_append, List.nil_append]
      rw [tokenizeRaw_textstep c _ h2 h1, ih]
  | Tok.tagTok closing nm :: ts, h => by
    have ih := tokenizeRaw_serialize ts (fun t ht => h t (List.mem_cons_of_mem _ ht))
    have hnm : nm ∈ BASIC_HTML_ALLOWED_TAGS := h _ (List.mem_cons_self _ _)
    simp only [BASIC_HTML_ALLOWED_TAGS, List.mem_cons, List.not_mem_nil, or_false] at hnm
    rcases hnm with rfl | rfl | rfl | rfl | rfl <;> cases closing
    · exact (tokenizeRaw_tagstep ['b'] (serialize ts) (by decide) (by decide)
        (by decide)).trans (by rw [ih]; exact congrArg (fun t => t :: ts) (by decide))
    · exact (tokenizeRaw_tagstep ['/', 'b'] (serialize ts) (by decide) (by decide)
        (by decide)).trans (by rw [ih]; exact congrArg (fun t => t :: ts) (by decide))
    · exact (tokenizeRaw_tagstep ['i'] (serialize ts) (by decide) (by decide)
        (by decide)).trans (by rw [ih]; exact congrArg (fun t => t :: ts) (by decide))
    · exact (tokenizeRaw_tagstep ['/', 'i'] (serialize ts) (by decide) (by decide)
        (by decide)).trans (by rw [ih]; exact congrArg (fun t => t :: ts) (by decide))
    · exact (tokenizeRaw_tagstep ['e', 'm'] (serialize ts) (by decide) (by decide)
        (by decide)).trans (by rw [ih]; exact congrArg (fun t => t :: ts) (by decide))
    · exact (tokenizeRaw_tagstep ['/', 'e', 'm'] (serialize ts) (by decide) (by decide)
        (by decide)).trans (by rw [ih]; exact congrArg (fun t => t :: ts) (by decide))
    · exact (tokenizeRaw_tagstep ['s', 't', 'r', 'o', 'n', 'g'] (serialize ts) (by decide)
        (by decide) (by decide)).trans
        (by rw [ih]; exact congrArg (fun t => t :: ts) (by decide))
    · exact (tokenizeRaw_tagstep ['/', 's', 't', 'r', 'o', 'n', 'g'] (serialize ts) (by decide)
        (by decide) (by decide)).trans
        (by rw [ih]; exact congrArg (fun t => t :: ts) (by decide))
    · exact (tokenizeRaw_tagstep ['b', 'r'] (serialize ts) (by decide) (by decide)
        (by decide)).trans (by rw [ih]; exact congrArg (fun t => t :: ts) (by decide))
    · exact (tokenizeRaw_tagstep ['/', 'b', 'r'] (serialize ts) (by decide) (by decide)
        (by decide)).trans (by rw [ih]; exact congrArg (fun t => t :: ts) (by decide))

theorem keep_TokOk {al : List (List Char)} (hal : ∀ nm ∈ al, nm ∈ BASIC_HTML_ALLOWED_TAGS)
    {t : Tok} (h : keep al t = true) : TokOk t := by
  cases t with
  | text c => trivial
  | tagTok closing nm =>
    simp only [keep, decide_eq_true_eq] at h
    exact hal nm h

theorem sanitizeDOM_idem (al : List (List Char))
    (hal : ∀ nm ∈ al, nm ∈ BASIC_HTML_ALLOWED_TAGS) (s : List Char) :
    sanitizeDOM al (sanitizeDOM al s) = sanitizeDOM al s := by
  unfold sanitizeDOM
  rw [tokenizeRaw_serialize ((tokenizeRaw s).filter (keep al))
    (fun t ht => keep_TokOk hal (List.of_mem_filter ht))]
  rw [List.filter_eq_self.mpr (fun t ht => List.of_mem_filter ht)]

theorem sanitizeText_idem (x : Option String) :
    sanitizeText (some (sanitizeText x)) = sanitizeText x := by
  cases x with
  | none => simp [sanitizeText]
  | some s =>
    by_cases hs : s = ""
    · simp [sanitizeText, hs]
    · simp only [sanitizeText, if_neg hs]
      by_cases hinner : String.mk (sanitizeDOM TEXT_ONLY_ALLOWED_TAGS s.data) = ""
      · simp [hinner]
      · rw [if_neg hinner]
        exact congrArg String.mk
          (sanitizeDOM_idem _ (by simp [TEXT_ONLY_ALLOWED_TAGS]) s.data)

theorem sanitizeHtml_idem (x : Option String) :
    sanitizeHtml (some (sanitizeHtml x)) = sanitizeHtml x := by
  cases x with
  | none => simp [sanitizeHtml]
  | some s =>
    by_cases hs : s = ""
    · simp [sanitizeHtml, hs]
    · simp only [sanitizeHtml, if_neg hs]
      by_cases hinner : String.mk (sanitizeDOM BASIC_HTML_ALLOWED_TAGS s.data) = ""
      · simp [hinner]
      · rw [if_neg hinner]
        exact congrArg String.mk (sanitizeDOM_idem _ (fun nm h => h) s.data)

/-! Data model of frontend/src/lib/api.ts.  The risk_level, overall_risk and
recommendation fields are plain strings: the TypeScript union types exist only
at compile time and no runtime validation is performed on the parsed JSON. -/

/-- Clause of frontend/src/lib/api.ts (ClauseAnalysis). -/
structure Clause where
  clause_id : String
  original_text : String
  topic : String
  risk_level : String
  risk_explanation : String
  law_reference : Option String
  suggested_rewrite : String
deriving DecidableEq

/-- AnalysisResult of frontend/src/lib/api.ts. -/
structure AnalysisResult where
  contract_id : String
  contract_name : String
  overall_risk : String
  summary : String
  clauses : List Clause
  total_issues : Int
  recommendation : String
  analyzed_at : String
deriving DecidableEq

/-- sanitizeClause of the AnalysisContent components (part_000 lines 60-70 and
part_002 lines 404-414, identical).  A falsy law_reference (null or the empty
string) maps to null, mirroring the JavaScript conditional expression. -/
def sanitizeClause (c : Clause) : Clause :=
  { c with
    clause_id := sanitizeText (some c.clause_id),
    original_text := sanitizeText (some c.original_text),
    topic := sanitizeText (some c.topic),
    risk_explanation := sanitizeText (some c.risk_explanation),
    law_reference :=
      match c.law_reference with
      | none => none
      | some l => if l = "" then none else some (sanitizeText (some l)),
    suggested_rewrite := sanitizeText (some c.suggested_rewrite) }

/-- sanitizeAnalysis of the part_000 AnalysisContent variant (lines 81-90):
recommendation and overall_risk are spread through unchanged. -/
def sanitizeAnalysis (a : AnalysisResult) : AnalysisResult :=
  { a with
    contract_id := sanitizeText (some a.contract_id),
    contract_name := sanitizeText (some a.contract_name),
    summary := sanitizeText (some a.summary),
    clauses := a.clauses.map sanitizeClause }

/-- sanitizeAnalysis of the part_002 AnalysisContent variant (lines 422-431):
this variant additionally passes recommendation through sanitizeText. -/
def sanitizeAnalysis002 (a : AnalysisResult) : AnalysisResult :=
  { a with
    contract_id := sanitizeText (some a.contract_id),
    contract_name := sanitizeText (some a.contract_name),
    summary := sanitizeText (some a.summary),
    recommendation := sanitizeText (some a.recommendation),
    clauses := a.clauses.map sanitizeClause }

/-- RISK_SCORES of the AnalysisContent components. -/
def RISK_SCORES : List (String × Nat) :=
  [("low", 25), ("medium", 50), ("high", 75), ("critical", 95)]

/-- riskScore computation of the AnalysisContent components:
RISK_SCORES lookup with a JavaScript falsy-or fallback to 50, and 50 when no
analysis is present. -/
def riskScore (analysis : Option AnalysisResult) : Nat :=
  match analysis with
  | none => 50
  | some a =>
    match RISK_SCORES.lookup a.overall_risk with
    | some n => if n = 0 then 50 else n
    | none => 50

/-! Analysis session controller (the useEffect fetchAnalysis logic of the
AnalysisContent variants part_000 and part_002). -/

/-- Observable state of one analysis view: the loading, error and analysis
useState cells. -/
structure SessionState where
  loading : Bool
  error : Option String
  analysis : Option AnalysisResult
deriving DecidableEq

/-- State right after the synchronous prologue of fetchAnalysis
(setLoading(true), setError(null)) on a fresh mount. -/
def startState : SessionState :=
  { loading := true, error := none, analysis := none }

/-- Synchronous prologue of fetchAnalysis: setLoading(true), setError(null). -/
def effectBegin (st : SessionState) : SessionState :=
  { st with loading := true, error := none }

/-- Outbound request issued by fetchAnalysis. -/
inductive FetchReq where
  | upload (uid : String)
  | mock (cid : String)
deriving DecidableEq

/-- JavaScript truthiness of a nullable string (null and the empty string are
falsy). -/
def truthy : Option String → Bool
  | none => false
  | some s => decide (¬ (s = ""))

/-- Request selection of fetchAnalysis (part_000 lines 159-179, identical
branching in part_002 lines 500-510): if (uploadId) analyze the upload,
else if (contractId) analyze the mock contract, else throw. -/
def planFetch (contractId uploadId : Option String) : Except String FetchReq :=
  if truthy uploadId then Except.ok (FetchReq.upload (uploadId.getD ""))
  else if truthy contractId then Except.ok (FetchReq.mock (contractId.getD ""))
  else Except.error "No contract or upload ID provided"

/-- Completion handler of the part_000 fetchAnalysis applied to the state at
completion time.  `aborted` is whether this request's AbortController was
aborted before completion; `honors` is whether the transport turned that
abort into an AbortError rejection.  The success path (setAnalysis) is not
guarded: only the AbortError early return and the finally-block setLoading
check the abort signal. -/
def applyFetch000 (st : SessionState) (aborted honors : Bool)
    (outcome : Except String AnalysisResult) : SessionState :=
  if aborted && honors then st
  else
    match outcome with
    | Except.ok r =>
      let st1 := { st with analysis := some (sanitizeAnalysis r) }
      if aborted then st1 else { st1 with loading := false }
    | Except.error m =>
      let st1 := { st with error := some m, analysis := none }
      if aborted then st1 else { st1 with loading := false }

/-- Completion handler of the part_002 fetchAnalysis: every state update is
guarded by the isMounted flag, which the cleanup function clears. -/
def applyFetch002 (st : SessionState) (mounted : Bool)
    (outcome : Except String AnalysisResult) : SessionState :=
  if mounted then
    match outcome with
    | Except.ok r =>
      { st with analysis := some (sanitizeAnalysis002 r), loading := false }
    | Except.error m =>
      { st with error := some m, analysis := none, loading := false }
  else st

/-- One non-superseded run of the part_000 effect: plan the request, complete
it with the transport's outcome.  The second component is the network request
issued, none when no call was made. -/
def runEffect (contractId uploadId : Option String)
    (transport : FetchReq → Except String AnalysisResult) :
    SessionState × Option FetchReq :=
  match planFetch contractId uploadId with
  | Except.error m => (applyFetch000 startState false true (Except.error m), none)
  | Except.ok req => (applyFetch000 startState false true (transport req), some req)

/-- One non-superseded run of the part_002 effect. -/
def runEffect002 (contractId uploadId : Option String)
    (transport : FetchReq → Except String AnalysisResult) :
    SessionState × Option FetchReq :=
  match planFetch contractId uploadId with
  | Except.error m => (applyFetch002 startState true (Except.error m), none)
  | Except.ok req => (applyFetch002 startState true (transport req), some req)

/-! Upload admission gate
(frontend/src/components/contract/DocumentUploader.tsx, validateFile). -/

/-- Metadata of a candidate file as validateFile reads it: name, declared
media type (File.type, may be empty) and byte size. -/
structure FileMeta where
  name : String
  mediaType : String
  size : Nat
deriving DecidableEq

/-- MAX_FILE_SIZE of DocumentUploader.tsx. -/
def MAX_FILE_SIZE : Nat := 10 * 1024 * 1024

/-- ALLOWED_EXTENSIONS of DocumentUploader.tsx. -/
def ALLOWED_EXTENSIONS : List String := [".pdf", ".docx", ".txt"]

/-- ALLOWED_MIME_TYPES of DocumentUploader.tsx. -/
def ALLOWED_MIME_TYPES : List String :=
  ["application/pdf",
   "application/vnd.openxmlformats-officedocument.wordprocessingml.document",
   "text/plain"]

/-- JavaScript String.split with a one-character separator, on the character
list: always returns at least one (possibly empty) segment. -/
def splitDot : List Char → List (List Char)
  | [] => [[]]
  | c :: cs =>
    if c = '.' then [] :: splitDot cs
    else
      match splitDot cs with
      | [] => [[c]]
      | s :: ss => (c :: s) :: ss

/-- Last dot-delimited segment of a file name (split(".").pop()). -/
def lastSegment (name : String) : List Char :=
  (splitDot name.data).getLastD []

/-- Extension string computed by validateFile:
"." + name.split(".").pop()?.toLowerCase(). -/
def extensionOf (name : String) : String :=
  "." ++ String.mk ((lastSegment name).map Char.toLower)

/-- validateFile of DocumentUploader.tsx (lines 49-72): returns the error
message of the first failing check, or none when the file is accepted. -/
def validateFile (f : FileMeta) : Option String :=
  if f.size = 0 then some "File is empty"
  else if ¬ (extensionOf f.name ∈ ALLOWED_EXTENSIONS) then
    some ("Invalid file type. Allowed: " ++ String.intercalate ", " ALLOWED_EXTENSIONS)
  else if ¬ (f.mediaType = "") ∧ ¬ (f.mediaType ∈ ALLOWED_MIME_TYPES) then
    some ("Invalid file type: " ++ f.mediaType)
  else if f.size > MAX_FILE_SIZE then
    some "File too large. Maximum size is 10MB"
  else none

/-- Rejection reasons of the AdmissionResult data model in the spec. -/
inductive RejectReason where
  | emptyFile
  | unsupportedExtension
  | unsupportedMediaType
  | tooLarge
deriving DecidableEq

/-- AdmissionResult of the spec: admitted (carrying the candidate unchanged)
or rejected with one reason. -/
inductive AdmissionResult where
  | admitted (f : FileMeta)
  | rejected (r : RejectReason)
deriving DecidableEq

/-- Spec-side admission gate, following the words of spec section 4.1: the
five checks in the stated order, with the extension derived from the last
dot-delimited segment of the name, lower-cased. -/
def admitSpec (f : FileMeta) : AdmissionResult :=
  if f.size = 0 then AdmissionResult.rejected RejectReason.emptyFile
  else if ¬ (String.mk ((lastSegment f.name).map Char.toLower)
      ∈ (["pdf", "docx", "txt"] : List String)) then
    AdmissionResult.rejected RejectReason.unsupportedExtension
  else if ¬ (f.mediaType = "") ∧ ¬ (f.mediaType ∈ ALLOWED_MIME_TYPES) then
    AdmissionResult.rejected RejectReason.unsupportedMediaType
  else if f.size > 10 * 1024 * 1024 then
    AdmissionResult.rejected RejectReason.tooLarge
  else AdmissionResult.admitted f

/-- Message that validateFile reports for each spec-side rejection reason. -/
def rejectionMessage (f : FileMeta) : RejectReason → String
  | RejectReason.emptyFile => "File is empty"
  | RejectReason.unsupportedExtension =>
    "Invalid file type. Allowed: " ++ String.intercalate ", " ALLOWED_EXTENSIONS
  | RejectReason.unsupportedMediaType => "Invalid file type: " ++ f.mediaType
  | RejectReason.tooLarge => "File too large. Maximum size is 10MB"

theorem dot_append_inj {s t : String} : ("." ++ s) = ("." ++ t) ↔ s = t := by
  constructor
  · intro h
    have hd := congrArg String.data h
    simp [String.data_append] at hd
    exact String.ext hd
  · intro h; rw [h]

theorem extension_mem_iff (seg : String) :
    ("." ++ seg) ∈ ALLOWED_EXTENSIONS ↔ seg ∈ (["pdf", "docx", "txt"] : List String) := by
  have h1 : (".pdf" : String) = "." ++ "pdf" := by decide
  have h2 : (".docx" : String) = "." ++ "docx" := by decide
  have h3 : (".txt" : String) = "." ++ "txt" := by decide
  simp only [ALLOWED_EXTENSIONS, List.mem_cons, List.not_mem_nil, or_false,
    h1, h2, h3, dot_append_inj]

theorem splitDot_no_dot : ∀ l : List Char, '.' ∉ l → splitDot l = [l]
  | [], _ => rfl
  | c :: cs, h => by
    have hc : ¬ (c = '.') := fun hh => h (by simp [hh])
    have ih := splitDot_no_dot cs (fun hm => h (by simp [hm]))
    simp [splitDot, hc, ih]

theorem lastSegment_no_dot (name : String) (h : '.' ∉ name.data) :
    lastSegment name = name.data := by
  unfold lastSegment
  rw [splitDot_no_dot name.data h]
  rfl

/-! API request error handling (frontend/src/lib/api.ts, ApiClient.request). -/

/-- Error body of a non-2xx response as the request method reads it: the
optional detail and message fields of the parsed JSON. -/
structure ErrorBody where
  detail : Option String
  message : Option String
deriving DecidableEq

/-- Error message construction of ApiClient.request: the parsed body (or the
empty object when the body is absent or fails to parse, via .catch(() => ({})))
is reduced by error.detail || error.message || "API request failed" under
JavaScript truthiness. -/
def apiErrorMessage (body : Option ErrorBody) : String :=
  let b := body.getD { detail := none, message := none }
  if truthy b.detail then b.detail.getD ""
  else if truthy b.message then b.message.getD ""
  else "API request failed"

/-! Helper lemmas shared by the claim theorems. -/

theorem sanitizeAnalysis_overall_risk (a : AnalysisResult) :
    (sanitizeAnalysis a).overall_risk = a.overall_risk := rfl

theorem serializeTok_text_no_lt (c : Char) {x : Char}
    (hx : x ∈ serializeTok (Tok.text c)) : ¬ (x = '<') := by
  by_cases h1 : c = '&'
  · subst h1
    rw [show serializeTok (Tok.text '&') = ['&', 'a', 'm', 'p', ';'] from by decide] at hx
    intro hlt; subst hlt; simp at hx
  by_cases h2 : c = '<'
  · subst h2
    rw [show serializeTok (Tok.text '<') = ['&', 'l', 't', ';'] from by decide] at hx
    intro hlt; subst hlt; simp at hx
  by_cases h3 : c = '>'
  · subst h3
    rw [show serializeTok (Tok.text '>') = ['&', 'g', 't', ';'] from by decide] at hx
    intro hlt; subst hlt; simp at hx
  · rw [show serializeTok (Tok.text c) = [c] from by simp [serializeTok, h1, h2, h3]] at hx
    simp at hx
    intro hlt; exact h2 (hx ▸ hlt ▸ rfl)

theorem serialize_text_no_lt : ∀ ts : List Tok,
    (∀ t ∈ ts, ∃ c, t = Tok.text c) → '<' ∉ serialize ts
  | [], _ => by simp [serialize]
  | t :: ts, h => by
    obtain ⟨c, rfl⟩ := h t (List.mem_cons_self _ _)
    have ih := serialize_text_no_lt ts (fun u hu => h u (List.mem_cons_of_mem _ hu))
    simp only [serialize, List.mem_append]
    rintro (hx | hx)
    · exact serializeTok_text_no_lt c hx rfl
    · exact ih hx

theorem sanitizeText_no_lt (s : String) : '<' ∉ (sanitizeText (some s)).data := by
  by_cases hs : s = ""
  · simp [sanitizeText, hs]
  · simp only [sanitizeText, if_neg hs]
    apply serialize_text_no_lt
    intro t ht
    have hk := List.of_mem_filter ht
    cases t with
    | text c => exact ⟨c, rfl⟩
    | tagTok closing nm => simp [keep, TEXT_ONLY_ALLOWED_TAGS] at hk

/-! Claim theorems. -/

/-- Concrete result of the older request (generation A) in the C1 scenario. -/
def c1resA : AnalysisResult :=
  { contract_id := "a", contract_name := "A", overall_risk := "low", summary := "sa",
    clauses := [], total_issues := 0, recommendation := "SIGN", analyzed_at := "t1" }

/-- Concrete result of the newer request (generation B) in the C1 scenario. -/
def c1resB : AnalysisResult :=
  { contract_id := "b", contract_name := "B", overall_risk := "high", summary := "sb",
    clauses := [], total_issues := 1, recommendation := "NEGOTIATE", analyzed_at := "t2" }

/-- C1 counterexample: in the part_000 variant, when the transport does not
honor the abort signal, the superseded request A's success response arriving
after request B's response overwrites the session state: the final analysis
carries A's overall_risk ("low"), not B's ("high"), and the view still renders
it as a success (loading false, no error). -/
theorem claim_C1_counterexample :
    ((applyFetch000 (applyFetch000 (effectBegin (effectBegin startState)) false true
        (Except.ok c1resB)) true false (Except.ok c1resA)).analysis.map
      AnalysisResult.overall_risk) = some "low" ∧
    (applyFetch000 (applyFetch000 (effectBegin (effectBegin startState)) false true
        (Except.ok c1resB)) true false (Except.ok c1resA)).loading = false ∧
    (applyFetch000 (applyFetch000 (effectBegin (effectBegin startState)) false true
        (Except.ok c1resB)) true false (Except.ok c1resA)).error = none ∧
    c1resB.overall_risk = "high" := ⟨rfl, rfl, rfl, rfl⟩

/-- C1 (amended): a superseded request's completion is discarded in the
part_000 variant whenever the transport honors the abort signal (the fetch
rejects with AbortError), and in the part_002 variant unconditionally once the
cleanup has cleared the isMounted flag; in both cases the state established
for the newer request B survives the older request A's late completion. -/
theorem claim_C1_generation_check (st : SessionState)
    (o : Except String AnalysisResult) (rA rB : AnalysisResult) :
    applyFetch000 st true true o = st ∧
    applyFetch002 st false o = st ∧
    applyFetch000 (applyFetch000 st false true (Except.ok rB)) true true (Except.ok rA)
      = applyFetch000 st false true (Except.ok rB) ∧
    applyFetch002 (applyFetch002 st true (Except.ok rB)) false (Except.ok rA)
      = applyFetch002 st true (Except.ok rB) := by
  refine ⟨?_, ?_, ?_, ?_⟩ <;> simp [applyFetch000, applyFetch002]

/-- Concrete analysis result with overall_risk outside the closed enum set. -/
def c2res : AnalysisResult :=
  { contract_id := "c", contract_name := "C", overall_risk := "extreme", summary := "s",
    clauses := [], total_issues := 0, recommendation := "SIGN", analyzed_at := "t" }

/-- C2 counterexample: a response with overall_risk "extreme" does not drive
the session to Error; the effect completes with loading false, no error and a
stored analysis (the success rendering condition), and the gauge score is
silently coerced to the default 50 by the RISK_SCORES falsy-or fallback. -/
theorem claim_C2_counterexample :
    (runEffect (some "fair") none (fun _ => Except.ok c2res)).1.loading = false ∧
    (runEffect (some "fair") none (fun _ => Except.ok c2res)).1.error = none ∧
    (runEffect (some "fair") none (fun _ => Except.ok c2res)).1.analysis
      = some (sanitizeAnalysis c2res) ∧
    riskScore (runEffect (some "fair") none (fun _ => Except.ok c2res)).1.analysis = 50 :=
  ⟨rfl, rfl, rfl, rfl⟩

/-- C2 (amended): the session never validates enum fields: every successful
response, whatever its overall_risk, ends with loading false, no error and the
sanitized result stored (the Success shape), and an overall_risk outside the
closed set is coerced to the default gauge score 50 for rendering. -/
theorem claim_C2_out_of_set_risk (a : AnalysisResult) (cid : String) (hc : ¬ (cid = "")) :
    (runEffect (some cid) none (fun _ => Except.ok a)).1.loading = false ∧
    (runEffect (some cid) none (fun _ => Except.ok a)).1.error = none ∧
    (runEffect (some cid) none (fun _ => Except.ok a)).1.analysis
      = some (sanitizeAnalysis a) ∧
    (a.overall_risk ∉ (["low", "medium", "high", "critical"] : List String) →
      riskScore (runEffect (some cid) none (fun _ => Except.ok a)).1.analysis = 50) := by
  have hplan : planFetch (some cid) none = Except.ok (FetchReq.mock cid) := by
    simp [planFetch, truthy, hc]
  refine ⟨?_, ?_, ?_, ?_⟩
  · simp [runEffect, hplan, applyFetch000]
  · simp [runEffect, hplan, applyFetch000, startState]
  · simp [runEffect, hplan, applyFetch000]
  · intro h
    simp only [List.mem_cons, List.not_mem_nil, or_false, not_or] at h
    obtain ⟨n1, n2, n3, n4⟩ := h
    have e1 : (a.overall_risk == "low") = false := beq_eq_false_iff_ne.mpr n1
    have e2 : (a.overall_risk == "medium") = false := beq_eq_false_iff_ne.mpr n2
    have e3 : (a.overall_risk == "high") = false := beq_eq_false_iff_ne.mpr n3
    have e4 : (a.overall_risk == "critical") = false := beq_eq_false_iff_ne.mpr n4
    simp [runEffect, hplan, applyFetch000, riskScore, sanitizeAnalysis_overall_risk,
      RISK_SCORES, List.lookup, e1, e2, e3, e4]

/-- C2 witness: the amended theorem applied to the concrete "extreme" result. -/
theorem claim_C2_witness :
    (runEffect (some "fair") none (fun _ => Except.ok c2res)).1.error = none ∧
    riskScore (runEffect (some "fair") none (fun _ => Except.ok c2res)).1.analysis = 50 := by
  have h := claim_C2_out_of_set_risk c2res "fair" (by decide)
  exact ⟨h.2.1, h.2.2.2 (by decide)⟩

/-- C3: validateFile refines the spec's admission gate exactly: the five
checks run in the stated order, the first failure is the single reported
reason, an empty declared media type is never a rejection reason, and an
accepted candidate is admitted unchanged.  The function is total. -/
theorem claim_C3_admission_gate (f : FileMeta) :
    validateFile f =
      match admitSpec f with
      | AdmissionResult.admitted _ => none
      | AdmissionResult.rejected r => some (rejectionMessage f r) := by
  unfold validateFile admitSpec
  simp only [extensionOf, extension_mem_iff, MAX_FILE_SIZE]
  split_ifs <;> simp [rejectionMessage]

/-- Concrete analysis result whose recommendation field carries markup. -/
def c4res : AnalysisResult :=
  { contract_id := "c", contract_name := "C", overall_risk := "low", summary := "s",
    clauses := [], total_issues := 0, recommendation := "<b>SIGN</b>", analyzed_at := "t" }

/-- C4 counterexample: in the part_002 variant the enum-typed recommendation
field IS passed through sanitizeText before being stored (markup is stripped:
the stored value is "SIGN", not the raw "<b>SIGN</b>"), and it is not
validated against the closed value set. -/
theorem claim_C4_counterexample :
    ((runEffect002 (some "fair") none (fun _ => Except.ok c4res)).1.analysis.map
      AnalysisResult.recommendation) = some "SIGN" ∧
    c4res.recommendation = "<b>SIGN</b>" := by
  constructor
  · rw [show ((runEffect002 (some "fair") none (fun _ => Except.ok c4res)).1.analysis.map
        AnalysisResult.recommendation)
        = some (sanitizeText (some "<b>SIGN</b>")) from rfl]
    rw [show sanitizeText (some "<b>SIGN</b>")
        = String.mk (sanitizeDOM TEXT_ONLY_ALLOWED_TAGS ("<b>SIGN</b>" : String).data) from rfl]
    rw [show ("<b>SIGN</b>" : String).data
        = ['<', 'b', '>', 'S', 'I', 'G', 'N', '<', '/', 'b', '>'] from rfl]
    simp [sanitizeDOM, tokenizeRaw, splitAtGt, tagIsScript, tagIsStyle, tagNm, tagClosing,
      takeLetters, scriptName, styleName, keep, serialize, serializeTok,
      TEXT_ONLY_ALLOWED_TAGS, List.filter]
  · rfl

/-- C4 (amended): on success the stored result is the raw result with the
free-text fields (contract_id, contract_name, summary, and per clause
clause_id, original_text, topic, risk_explanation, suggested_rewrite) passed
through sanitizeText; neither variant validates the enum fields: the part_000
variant stores overall_risk and recommendation untouched, while the part_002
variant additionally passes recommendation through sanitizeText. -/
theorem claim_C4_sanitized_storage (r : AnalysisResult) (c : Clause) :
    (runEffect (some "fair") none (fun _ => Except.ok r)).1.analysis
      = some (sanitizeAnalysis r) ∧
    (sanitizeAnalysis r).overall_risk = r.overall_risk ∧
    (sanitizeAnalysis r).recommendation = r.recommendation ∧
    (sanitizeAnalysis r).contract_id = sanitizeText (some r.contract_id) ∧
    (sanitizeAnalysis r).contract_name = sanitizeText (some r.contract_name) ∧
    (sanitizeAnalysis r).summary = sanitizeText (some r.summary) ∧
    (sanitizeAnalysis r).clauses = r.clauses.map sanitizeClause ∧
    (sanitizeClause c).clause_id = sanitizeText (some c.clause_id) ∧
    (sanitizeClause c).original_text = sanitizeText (some c.original_text) ∧
    (sanitizeClause c).topic = sanitizeText (some c.topic) ∧
    (sanitizeClause c).risk_explanation = sanitizeText (some c.risk_explanation) ∧
    (sanitizeClause c).suggested_rewrite = sanitizeText (some c.suggested_rewrite) ∧
    (sanitizeClause c).risk_level = c.risk_level ∧
    (sanitizeAnalysis002 r).recommendation = sanitizeText (some r.recommendation) ∧
    (runEffect002 (some "fair") none (fun _ => Except.ok r)).1.analysis
      = some (sanitizeAnalysis002 r) :=
  ⟨rfl, rfl, rfl, rfl, rfl, rfl, rfl, rfl, rfl, rfl, rfl, rfl, rfl, rfl, rfl⟩

/-- C5: sanitizeText and sanitizeHtml are idempotent for every input. -/
theorem claim_C5_idempotent (x : Option String) :
    sanitizeText (some (sanitizeText x)) = sanitizeText x ∧
    sanitizeHtml (some (sanitizeHtml x)) = sanitizeHtml x :=
  ⟨sanitizeText_idem x, sanitizeHtml_idem x⟩

/-- C6: sanitizeText maps null and the empty string to the empty string, the
script element of the documented example is removed with its content (the
result is exactly "Hello"), and every output is inert plain text: no raw lt
character (hence no markup) ever occurs in an output. -/
theorem claim_C6_sanitizeText_contract :
    sanitizeText none = "" ∧
    sanitizeText (some "") = "" ∧
    sanitizeText (some "<script>alert(1)</script>Hello") = "Hello" ∧
    ∀ s : String, ((sanitizeText (some s)).data.contains '<') = false := by
  refine ⟨rfl, rfl, ?_, ?_⟩
  · rw [show sanitizeText (some "<script>alert(1)</script>Hello")
        = String.mk (sanitizeDOM TEXT_ONLY_ALLOWED_TAGS
            ("<script>alert(1)</script>Hello" : String).data) from rfl]
    rw [show ("<script>alert(1)</script>Hello" : String).data
        = ['<', 's', 'c', 'r', 'i', 'p', 't', '>', 'a', 'l', 'e', 'r', 't', '(', '1', ')',
           '<', '/', 's', 'c', 'r', 'i', 'p', 't', '>', 'H', 'e', 'l', 'l', 'o'] from rfl]
    simp [sanitizeDOM, tokenizeRaw, splitAtGt, tagIsScript, tagIsStyle, tagNm, tagClosing,
      takeLetters, scriptName, styleName, scriptClose, dropThrough, List.isPrefixOf,
      keep, serialize, serializeTok, TEXT_ONLY_ALLOWED_TAGS, List.filter]
  · intro s
    simpa using sanitizeText_no_lt s

/-- C7 counterexample: a descriptor carrying both a contract id and an upload
id does not fail fast: the controller silently picks the upload id and issues
a network request for it (the transport error here shows the request reached
the transport). -/
theorem claim_C7_counterexample :
    (runEffect (some "fair") (some "u1") (fun _ => Except.error "boom")).2
      = some (FetchReq.upload "u1") ∧
    (runEffect (some "fair") (some "u1") (fun _ => Except.error "boom")).1.error
      = some "boom" := ⟨rfl, rfl⟩

/-- C7 (amended): when the upload id is truthy the controller silently issues
the upload request, whatever the contract id; only when both ids are falsy
does the session move to Error ("No contract or upload ID provided") without
issuing any network call. -/
theorem claim_C7_descriptor_selection (c u : Option String)
    (tr : FetchReq → Except String AnalysisResult) :
    (truthy u = true → (runEffect c u tr).2 = some (FetchReq.upload (u.getD ""))) ∧
    (truthy u = false → truthy c = false →
      (runEffect c u tr).2 = none ∧
      (runEffect c u tr).1.error = some "No contract or upload ID provided" ∧
      (runEffect c u tr).1.loading = false ∧
      (runEffect c u tr).1.analysis = none) := by
  constructor
  · intro h
    simp [runEffect, planFetch, h]
  · intro h1 h2
    simp [runEffect, planFetch, h1, h2, applyFetch000, startState]

/-- C7 witness: the amended theorem applied at a both-ids descriptor and at a
neither-id descriptor. -/
theorem claim_C7_witness :
    (runEffect (some "c1") (some "u9") (fun _ => Except.error "x")).2
      = some (FetchReq.upload "u9") ∧
    (runEffect none none (fun _ => Except.error "x")).2 = none ∧
    (runEffect none none (fun _ => Except.error "x")).1.error
      = some "No contract or upload ID provided" := by
  refine ⟨(claim_C7_descriptor_selection (some "c1") (some "u9") _).1 (by decide), ?_, ?_⟩
  · exact ((claim_C7_descriptor_selection none none (fun _ => Except.error "x")).2
      (by decide) (by decide)).1
  · exact ((claim_C7_descriptor_selection none none (fun _ => Except.error "x")).2
      (by decide) (by decide)).2.1

/-- C8 counterexample: a body whose detail field is present but empty does not
surface the detail field: JavaScript truthiness skips it and the generic
message is produced instead. -/
theorem claim_C8_counterexample :
    apiErrorMessage (some { detail := some "", message := none }) = "API request failed" := by
  decide

/-- C8 (amended): the surfaced error carries the body's detail field when
present and non-empty, else the message field when present and non-empty, else
the fixed generic message; an absent or unparseable body (the empty object
produced by the json catch handler) also yields the generic message, and the
construction is total, so no JSON-parse failure propagates. -/
theorem claim_C8_error_message (b : ErrorBody) :
    (∀ d : String, b.detail = some d → ¬ (d = "") → apiErrorMessage (some b) = d) ∧
    (truthy b.detail = false → ∀ m : String, b.message = some m → ¬ (m = "") →
      apiErrorMessage (some b) = m) ∧
    (truthy b.detail = false → truthy b.message = false →
      apiErrorMessage (some b) = "API request failed") ∧
    apiErrorMessage none = "API request failed" := by
  refine ⟨?_, ?_, ?_, rfl⟩
  · intro d hd hne
    simp [apiErrorMessage, hd, truthy, hne]
  · intro hdet m hm hne
    have hmt : truthy (some m) = true := by simp [truthy, hne]
    simp [apiErrorMessage, hdet, hm, hmt]
  · intro hdet hmsg
    simp [apiErrorMessage, hdet, hmsg]

/-- C8 witness: the amended theorem applied at concrete bodies for each of the
four branches. -/
theorem claim_C8_witness :
    apiErrorMessage (some { detail := some "denied", message := some "nope" }) = "denied" ∧
    apiErrorMessage (some { detail := none, message := some "nope" }) = "nope" ∧
    apiErrorMessage (some { detail := some "", message := some "" }) = "API request failed" ∧
    apiErrorMessage none = "API request failed" := by
  refine ⟨?_, ?_, ?_, ?_⟩
  · exact (claim_C8_error_message { detail := some "denied", message := some "nope" }).1
      "denied" rfl (by decide)
  · exact (claim_C8_error_message { detail := none, message := some "nope" }).2.1
      (by decide) "nope" rfl (by decide)
  · exact (claim_C8_error_message { detail := some "", message := some "" }).2.2.1
      (by decide) (by decide)
  · exact (claim_C8_error_message { detail := none, message := none }).2.2.2

/-- C9: sanitizeAnalysis (part_000) is frame-preserving: total_issues,
analyzed_at and overall_risk are unchanged, the clause list keeps its length
and order (it is the pointwise image under sanitizeClause), and every clause
keeps its risk_level. -/
theorem claim_C9_frame (a : AnalysisResult) :
    (sanitizeAnalysis a).total_issues = a.total_issues ∧
    (sanitizeAnalysis a).analyzed_at = a.analyzed_at ∧
    (sanitizeAnalysis a).overall_risk = a.overall_risk ∧
    (sanitizeAnalysis a).clauses.length = a.clauses.length ∧
    (sanitizeAnalysis a).clauses.map Clause.risk_level = a.clauses.map Clause.risk_level := by
  refine ⟨rfl, rfl, rfl, ?_, ?_⟩
  · simp [sanitizeAnalysis]
  · have hr : ∀ c : Clause, (sanitizeClause c).risk_level = c.risk_level := fun _ => rfl
    simp [sanitizeAnalysis, List.map_map, Function.comp, hr]

/-- C10 counterexample: the non-empty dotless file named "PDF" is neither
"pdf", "docx" nor "txt", yet it is admitted (the whole name is lower-cased
before the extension comparison), refuting the rejection half of the claim. -/
theorem claim_C10_counterexample :
    validateFile { name := "PDF", mediaType := "", size := 4 } = none := by decide

/-- C10 (amended): for a non-empty file whose name contains no dot the whole
name, lower-cased, is treated as the extension: the file is admitted exactly
when that lower-cased name is pdf, docx or txt and the media type and size
checks pass, and it is rejected with the unsupported-extension message
whenever the lower-cased name is not in the set. -/
theorem claim_C10_dotless_extension (f : FileMeta) (hdot : '.' ∉ f.name.data)
    (hsz : ¬ (f.size = 0)) :
    (validateFile f = none ↔
      String.mk (f.name.data.map Char.toLower) ∈ (["pdf", "docx", "txt"] : List String) ∧
      (f.mediaType = "" ∨ f.mediaType ∈ ALLOWED_MIME_TYPES) ∧ f.size ≤ MAX_FILE_SIZE) ∧
    (String.mk (f.name.data.map Char.toLower) ∉ (["pdf", "docx", "txt"] : List String) →
      validateFile f = some ("Invalid file type. Allowed: " ++
        String.intercalate ", " ALLOWED_EXTENSIONS)) := by
  have hseg : lastSegment f.name = f.name.data := lastSegment_no_dot f.name hdot
  unfold validateFile
  simp only [extensionOf, hseg, extension_mem_iff, if_neg hsz]
  constructor
  · by_cases h1 : String.mk (f.name.data.map Char.toLower)
        ∈ (["pdf", "docx", "txt"] : List String)
    · rw [if_neg (not_not_intro h1)]
      by_cases h2 : ¬ (f.mediaType = "") ∧ ¬ (f.mediaType ∈ ALLOWED_MIME_TYPES)
      · rw [if_pos h2]
        exact iff_of_false (by simp)
          (by rintro ⟨_, hm, _⟩; rcases hm with hm | hm; exact h2.1 hm; exact h2.2 hm)
      · rw [if_neg h2]
        by_cases h3 : f.size > MAX_FILE_SIZE
        · rw [if_pos h3]
          exact iff_of_false (by simp) (fun hx => absurd hx.2.2 (by omega))
        · rw [if_neg h3]
          refine iff_of_true rfl ⟨h1, ?_, by omega⟩
          by_cases hm : f.mediaType = ""
          · exact Or.inl hm
          · exact Or.inr (by_contra fun hmm => h2 ⟨hm, hmm⟩)
    · rw [if_pos h1]
      exact iff_of_false (by simp) (fun hx => h1 hx.1)
  · intro hne
    rw [if_pos hne]

/-- C10 witness: the amended theorem applied at the dotless names "pdf"
(admitted) and "exe" (rejected with the unsupported-extension message). -/
theorem claim_C10_witness :
    validateFile { name := "pdf", mediaType := "", size := 4 } = none ∧
    validateFile { name := "exe", mediaType := "", size := 4 }
      = some ("Invalid file type. Allowed: " ++
        String.intercalate ", " ALLOWED_EXTENSIONS) := by
  constructor
  · exact (claim_C10_dotless_extension { name := "pdf", mediaType := "", size := 4 }
      (by decide) (by decide)).1.mpr ⟨by decide, Or.inl rfl, by decide⟩
  · exact (claim_C10_dotless_extension { name := "exe", mediaType := "", size := 4 }
      (by decide) (by decide)).2 (by decide)

end ContractAI
